/-
  Verification of the chat-playground client (src/src/App.tsx, React) and its
  Go proxy backend (same file, second document: enableCORS / handleCompletion)
  against the natural-language specification.

  The embedding is shallow: the wire records become Lean structures, the
  handler bodies become pure functions, and the two I/O boundaries (the
  client's fetch to the proxy, and the proxy's POST to the upstream Ollama
  engine) become explicit outcome parameters.  Floating-point wall-clock
  latency is modelled by the rationals.
-/
import Mathlib

namespace ChatbotApp

/-! ## String primitives

`splitWhen p l` splits the character list `l` at every character satisfying
`p`, keeping empty segments, exactly as JavaScript's `String.prototype.split`
with a one-character separator does (and as the segment decomposition
underlying Go's `bytes.Fields`).  `""` yields `[[]]`, matching
`"".split(" ") == [""]`. -/

def splitWhen (p : Char → Bool) : List Char → List (List Char)
  | [] => [[]]
  | c :: cs =>
    match splitWhen p cs with
    | [] => [[]]
    | t :: ts => if p c then [] :: t :: ts else (c :: t) :: ts

/-- Go `unicode.IsSpace`: the Unicode White_Space code points. -/
def goIsSpace (c : Char) : Bool :=
  c = '\t' || c = '\n' || c = '\x0b' || c = '\x0c' || c = '\r' || c = ' ' ||
  c = '\x85' || c = '\xa0' || c = '\u1680' ||
  ('\u2000' ≤ c && c ≤ '\u200a') || c = '\u2028' || c = '\u2029' ||
  c = '\u202f' || c = '\u205f' || c = '\u3000'

/-- JavaScript whitespace as used by `String.prototype.trim`:
the WhiteSpace production (TAB, VT, FF, SP, NBSP, ZWNBSP, Unicode Zs)
together with the LineTerminator production (LF, CR, LS, PS). -/
def jsIsWhitespace (c : Char) : Bool :=
  c = '\t' || c = '\n' || c = '\x0b' || c = '\x0c' || c = '\r' || c = ' ' ||
  c = '\xa0' || c = '\ufeff' || c = '\u1680' ||
  ('\u2000' ≤ c && c ≤ '\u200a') || c = '\u2028' || c = '\u2029' ||
  c = '\u202f' || c = '\u205f' || c = '\u3000'

/-- `len(bytes.Fields([]byte(s)))` from the Go proxy: the number of maximal
runs of non-whitespace characters of `s` (splitting around `unicode.IsSpace`). -/
def fieldsCount (s : String) : Nat :=
  ((splitWhen goIsSpace s.data).filter (fun t => !t.isEmpty)).length

/-- JavaScript `s.split(" ").length` from the client fallback: the number of
segments obtained by cutting `s` at every single space character (empty
segments included). -/
def splitSpaceCount (s : String) : Nat :=
  (splitWhen (fun c => c = ' ') s.data).length

/-- Modelled from the spec's words: "the number of whitespace-delimited words"
in a string, i.e. the count of maximal whitespace-free nonempty runs.  Kept
separate from `fieldsCount` because the client claims compare the client's
computation against this wording. -/
def whitespaceWordCount (s : String) : Nat :=
  ((splitWhen jsIsWhitespace s.data).filter (fun t => !t.isEmpty)).length

/-- JavaScript `s.trim()`: strips leading and trailing whitespace. -/
def jsTrim (s : String) : String :=
  ⟨(((s.data.dropWhile jsIsWhitespace).reverse).dropWhile jsIsWhitespace).reverse⟩

/-! ## Wire data model (Go structs / TypeScript interfaces) -/

/-- Go `CompletionRequest` (also the body the client sends:
`{model, prompt, max_tokens}`). -/
structure CompletionRequest where
  model : String
  prompt : String
  max_tokens : Int
deriving DecidableEq, Repr

/-- Go `Choice` / one element of the client's `ApiResponse.choices`. -/
structure Choice where
  text : String
deriving DecidableEq, Repr

/-- Go `Usage` / the client's `usage` object.  `completion_tokens` is a count
(the proxy always sends `len(bytes.Fields(...))`). -/
structure Usage where
  completion_tokens : Nat
deriving DecidableEq, Repr

/-- Go `CompletionResponse`: the proxy's reply body. -/
structure CompletionResponse where
  choices : List Choice
  usage : Usage
deriving DecidableEq, Repr

/-- Go `OllamaRequest`: the upstream request shape. -/
structure OllamaRequest where
  model : String
  prompt : String
  stream : Bool
deriving DecidableEq, Repr

/-- Go `OllamaResponse`: the upstream response shape. -/
structure OllamaResponse where
  model : String
  response : String
  done : Bool
  total_duration : Int
  eval_count : Int
deriving DecidableEq, Repr

/-- A JSON value, as far as the serialized shapes here need. -/
inductive JsonVal where
  | str (s : String)
  | int (n : Int)
  | bool (b : Bool)
deriving DecidableEq, Repr

/-- `json.Marshal` on `OllamaRequest`: one field per struct tag, in struct
order (`model`, `prompt`, `stream`). -/
def marshalOllamaRequest (o : OllamaRequest) : List (String × JsonVal) :=
  [("model", .str o.model), ("prompt", .str o.prompt), ("stream", .bool o.stream)]

/-! ## Proxy (Go): enableCORS and handleCompletion -/

/-- The outcome of the proxy's exchange with the upstream engine
(`http.Post` + `io.ReadAll` + `json.Unmarshal`), abstracting the three
failure points the Go code distinguishes. -/
inductive UpstreamOutcome where
  | postError (msg : String)
  | readError
  | parseError
  | success (status : Nat) (oresp : OllamaResponse)
deriving Repr

/-- An incoming HTTP request to the proxy, with the body already exposed as
decoded-or-not (`none` models a body `json.Decode` rejects). -/
structure ProxyRequest where
  method : String
  body : Option CompletionRequest
deriving Repr

/-- The body of an HTTP response from the proxy. -/
inductive RespBody where
  | empty
  | text (s : String)
  | json (r : CompletionResponse)
deriving DecidableEq, Repr

/-- An HTTP response from the proxy: status, headers in the order they are
set on the ResponseWriter, body. -/
structure HttpResp where
  status : Nat
  headers : List (String × String)
  body : RespBody
deriving DecidableEq, Repr

/-- Headers Go's `http.Error` sets. -/
def httpErrorHeaders : List (String × String) :=
  [("Content-Type", "text/plain; charset=utf-8"),
   ("X-Content-Type-Options", "nosniff")]

/-- Go `http.Error(w, msg, status)`: plain-text error with trailing newline. -/
def httpError (msg : String) (status : Nat) : HttpResp :=
  { status := status, headers := httpErrorHeaders, body := .text (msg ++ "\n") }

/-- The three CORS headers `enableCORS` sets on every response. -/
def corsHeaders : List (String × String) :=
  [("Access-Control-Allow-Origin", "*"),
   ("Access-Control-Allow-Methods", "POST, OPTIONS"),
   ("Access-Control-Allow-Headers", "Content-Type")]

/-- The `OllamaRequest` `handleCompletion` builds from a decoded
`CompletionRequest`: `model` and `prompt` copied, `stream` false.
(`max_tokens` does not occur in the `OllamaRequest` struct.) -/
def buildOllamaRequest (req : CompletionRequest) : OllamaRequest :=
  { model := req.model, prompt := req.prompt, stream := false }

/-- The `CompletionResponse` `handleCompletion` builds from a parsed
`OllamaResponse`: one choice with the upstream text, and
`completion_tokens := len(bytes.Fields(response))`. -/
def buildCompletionResponse (oresp : OllamaResponse) : CompletionResponse :=
  { choices := [{ text := oresp.response }],
    usage := { completion_tokens := fieldsCount oresp.response } }

/-- Go `handleCompletion`: method check, body decode, upstream exchange,
translation.  `upstream` is the oracle for the `http.Post` to Ollama on the
exact request the handler marshals.  (The `json.Marshal` failure branch of
the source cannot fire for this fixed shape and is not modelled.) -/
def handleCompletion (upstream : OllamaRequest → UpstreamOutcome)
    (r : ProxyRequest) : HttpResp :=
  if r.method ≠ "POST" then httpError "Method not allowed" 405
  else
    match r.body with
    | none => httpError "Invalid request body" 400
    | some req =>
      match upstream (buildOllamaRequest req) with
      | .postError msg => httpError ("Ollama error: " ++ msg) 502
      | .readError => httpError "Failed to read response" 500
      | .parseError => httpError "Failed to parse Ollama response" 500
      | .success _ oresp =>
        { status := 200,
          headers := [("Content-Type", "application/json")],
          body := .json (buildCompletionResponse oresp) }

/-- Go `enableCORS`: sets the CORS headers on every response, short-circuits
`OPTIONS` with an empty 200, otherwise delegates to `next`. -/
def enableCORS (next : ProxyRequest → HttpResp) (r : ProxyRequest) : HttpResp :=
  if r.method = "OPTIONS" then
    { status := 200, headers := corsHeaders, body := .empty }
  else
    let resp := next r
    { resp with headers := corsHeaders ++ resp.headers }

/-- The handler registered at `/v1/completions`:
`enableCORS(handleCompletion)`. -/
def completionsEndpoint (upstream : OllamaRequest → UpstreamOutcome)
    (r : ProxyRequest) : HttpResp :=
  enableCORS (handleCompletion upstream) r

/-! ## Client (App.tsx): handleSend, clearChat, session metrics -/

/-- `Message.role` in the client. -/
inductive Role where
  | user
  | assistant
deriving DecidableEq, Repr

/-- The client's per-message `metrics` block. -/
structure Metrics where
  latency : ℚ
  tokens : Nat
  tokensPerSecond : ℚ
deriving DecidableEq, Repr

/-- The client's `Message` interface. -/
structure Message where
  role : Role
  content : String
  metrics : Option Metrics
deriving DecidableEq, Repr

/-- The client's `ApiResponse` interface: `usage` is optional. -/
structure ApiResponse where
  choices : List Choice
  usage : Option Usage
deriving DecidableEq, Repr

/-- JavaScript `Response.ok`: status in the inclusive range 200–299. -/
def statusOk (status : Nat) : Bool :=
  200 ≤ status && status ≤ 299

/-- Outcome of the client's `fetch` as the `try` block observes it: either a
reply whose JSON body parsed as `ApiResponse`, or a thrown transport error. -/
inductive FetchOutcome where
  | reply (status : Nat) (data : ApiResponse)
  | failure
deriving Repr

/-- The body of the client's `try` block after `latency` is known, given the
reply.  `none` models a thrown exception: `data.choices[0]` is `undefined`
when `choices` is empty, so reading `.text` throws a TypeError. -/
def handleSendTry (latency : ℚ) (status : Nat) (data : ApiResponse) :
    Option Message :=
  if statusOk status then
    match data.choices.head? with
    | none => none
    | some c =>
      let text := c.text
      let tokens : Nat :=
        match data.usage with
        | some u => u.completion_tokens
        | none => splitSpaceCount text
      let tokensPerSecond : ℚ := if 0 < latency then (tokens : ℚ) / latency else 0
      some { role := .assistant, content := text,
             metrics := some { latency := latency, tokens := tokens,
                               tokensPerSecond := tokensPerSecond } }
  else
    some { role := .assistant,
           content := "Error: API returned " ++ toString status,
           metrics := none }

/-- The assistant message appended by the `catch` block. -/
def connectErrorMessage : Message :=
  { role := .assistant, content := "Error: Could not connect to backend",
    metrics := none }

/-- The assistant message the exchange appends: the `try` body's message, or —
when the `try` body throws (transport failure, or the TypeError from an empty
`choices`) — the `catch` block's message. -/
def handleSendRespond (latency : ℚ) (outcome : FetchOutcome) : Message :=
  match outcome with
  | .reply status data =>
    match handleSendTry latency status data with
    | some m => m
    | none => connectErrorMessage
  | .failure => connectErrorMessage

/-- The client state `handleSend` reads and writes. -/
structure ClientState where
  messages : List Message
  input : String
  isLoading : Bool
deriving Repr

/-- `handleSend`: the blank/busy guard, then the user message, the request
body `{model, prompt, max_tokens}`, and the assistant message for the
exchange outcome.  Returns the new state and the request sent (`none` when
the guard fires and no fetch is issued). -/
def handleSend (model : String) (maxTokens : Int) (st : ClientState)
    (latency : ℚ) (outcome : FetchOutcome) :
    ClientState × Option CompletionRequest :=
  if (jsTrim st.input).isEmpty || st.isLoading then (st, none)
  else
    let userMessage : Message := { role := .user, content := st.input, metrics := none }
    let req : CompletionRequest :=
      { model := model, prompt := st.input, max_tokens := maxTokens }
    let assistantMessage := handleSendRespond latency outcome
    ({ messages := st.messages ++ [userMessage, assistantMessage],
       input := "", isLoading := false },
     some req)

/-- `clearChat`: resets the message log to the empty array. -/
def clearChat (st : ClientState) : ClientState :=
  { st with messages := [] }

/-- `sessionMetrics`: the metrics blocks of the messages that carry one
(`messages.filter(m => m.metrics).map(m => m.metrics!)`). -/
def sessionMetrics (messages : List Message) : List Metrics :=
  (messages.filter (fun m => m.metrics.isSome)).filterMap (fun m => m.metrics)

/-- `avgLatency`: mean latency over `sessionMetrics`, or 0 when empty. -/
def avgLatency (messages : List Message) : ℚ :=
  let sm := sessionMetrics messages
  if 0 < sm.length then
    (sm.foldl (fun sum m => sum + m.latency) 0) / (sm.length : ℚ)
  else 0

/-- `avgThroughput`: mean tokensPerSecond over `sessionMetrics`, or 0. -/
def avgThroughput (messages : List Message) : ℚ :=
  let sm := sessionMetrics messages
  if 0 < sm.length then
    (sm.foldl (fun sum m => sum + m.tokensPerSecond) 0) / (sm.length : ℚ)
  else 0

/-- `totalTokens`: sum of token counts over `sessionMetrics`. -/
def totalTokens (messages : List Message) : Nat :=
  (sessionMetrics messages).foldl (fun sum m => sum + m.tokens) 0

/-- `sessionMetrics.length`, rendered as the Requests counter. -/
def requestCount (messages : List Message) : Nat :=
  (sessionMetrics messages).length

/-! ## Helper lemmas -/

theorem splitWhen_ne_nil (p : Char → Bool) (l : List Char) :
    splitWhen p l ≠ [] := by
  cases l with
  | nil => simp [splitWhen]
  | cons c cs =>
    cases h : splitWhen p cs with
    | nil => simp [splitWhen, h]
    | cons t ts =>
      cases hp : p c <;> simp [splitWhen, h, hp]

/-- Splitting at every separator yields one more segment than there are
separator characters. -/
theorem splitWhen_length (p : Char → Bool) (l : List Char) :
    (splitWhen p l).length = l.countP p + 1 := by
  induction l with
  | nil => rfl
  | cons c cs ih =>
    obtain ⟨t, ts, h⟩ : ∃ t ts, splitWhen p cs = t :: ts := by
      cases hsc : splitWhen p cs with
      | nil => exact absurd hsc (splitWhen_ne_nil p cs)
      | cons t ts => exact ⟨t, ts, rfl⟩
    have hlen : ts.length + 1 = cs.countP p + 1 := by
      simpa [h] using ih
    cases hp : p c <;>
      simp [splitWhen, h, hp, List.countP_cons] <;> omega

/-- `s.split(" ").length` is one more than the number of space characters. -/
theorem splitSpaceCount_eq (s : String) :
    splitSpaceCount s = s.data.countP (fun c => c = ' ') + 1 := by
  unfold splitSpaceCount
  exact splitWhen_length _ _

/-- A string of whitespace characters trims to the empty string. -/
theorem jsTrim_isEmpty_of_all_ws (s : String)
    (h : ∀ c ∈ s.data, jsIsWhitespace c = true) :
    (jsTrim s).isEmpty = true := by
  have h1 : s.data.dropWhile jsIsWhitespace = [] :=
    List.dropWhile_eq_nil_iff.mpr h
  unfold jsTrim
  rw [h1]
  rfl

/-! ## Claim theorems -/

/-- Claim C1: for every request whose body decodes as a `CompletionRequest`
and whose upstream exchange succeeds with a body decoding as an
`OllamaResponse`, `handleCompletion` emits a 200 `CompletionResponse` with
exactly one choice whose text is `oresp.response`, with
`usage.completion_tokens = len(bytes.Fields(oresp.response))` — the count of
whitespace-delimited fields of the response text. -/
theorem handleCompletion_translates
    (req : CompletionRequest) (upstream : OllamaRequest → UpstreamOutcome)
    (status : Nat) (oresp : OllamaResponse)
    (h : upstream (buildOllamaRequest req) = .success status oresp) :
    handleCompletion upstream { method := "POST", body := some req } =
      { status := 200,
        headers := [("Content-Type", "application/json")],
        body := .json { choices := [{ text := oresp.response }],
                        usage := { completion_tokens := fieldsCount oresp.response } } } := by
  simp [handleCompletion, h, buildCompletionResponse]

/-- Claim C1 witness: the spec's scenario — request
`{model:"llama3.2", prompt:"hello", max_tokens:150}` with upstream returning
`{response:"hi there", done:true}` yields
`{choices:[{text:"hi there"}], usage:{completion_tokens:2}}`. -/
theorem handleCompletion_translates_witness :
    handleCompletion
        (fun _ => .success 200
          { model := "llama3.2", response := "hi there", done := true,
            total_duration := 0, eval_count := 0 })
        { method := "POST",
          body := some { model := "llama3.2", prompt := "hello", max_tokens := 150 } } =
      { status := 200,
        headers := [("Content-Type", "application/json")],
        body := .json { choices := [{ text := "hi there" }],
                        usage := { completion_tokens := 2 } } } := by
  have h := handleCompletion_translates
    { model := "llama3.2", prompt := "hello", max_tokens := 150 }
    (fun _ => .success 200
      { model := "llama3.2", response := "hi there", done := true,
        total_duration := 0, eval_count := 0 })
    200
    { model := "llama3.2", response := "hi there", done := true,
      total_duration := 0, eval_count := 0 }
    rfl
  rw [h]
  rfl

/-- Claim C10: the proxy never inspects the upstream HTTP status: whenever
the upstream exchange delivers a parsed `OllamaResponse`, whatever the
upstream status (404, 500, ...), the proxy answers 200 with the
`CompletionResponse` built from that body. -/
theorem handleCompletion_ignores_upstream_status
    (req : CompletionRequest) (upstream : OllamaRequest → UpstreamOutcome)
    (status : Nat) (oresp : OllamaResponse)
    (h : upstream (buildOllamaRequest req) = .success status oresp) :
    handleCompletion upstream { method := "POST", body := some req } =
      { status := 200,
        headers := [("Content-Type", "application/json")],
        body := .json (buildCompletionResponse oresp) } := by
  simp [handleCompletion, h]

/-- Claim C10 witness: an upstream reply with error status 404 still yields a
200 translation of its body. -/
theorem handleCompletion_ignores_upstream_status_witness :
    handleCompletion
        (fun _ => .success 404
          { model := "llama3.2", response := "not found", done := true,
            total_duration := 0, eval_count := 0 })
        { method := "POST",
          body := some { model := "llama3.2", prompt := "hello", max_tokens := 150 } } =
      { status := 200,
        headers := [("Content-Type", "application/json")],
        body := .json { choices := [{ text := "not found" }],
                        usage := { completion_tokens := 2 } } } := by
  have h := handleCompletion_ignores_upstream_status
    { model := "llama3.2", prompt := "hello", max_tokens := 150 }
    (fun _ => .success 404
      { model := "llama3.2", response := "not found", done := true,
        total_duration := 0, eval_count := 0 })
    404
    { model := "llama3.2", response := "not found", done := true,
      total_duration := 0, eval_count := 0 }
    rfl
  rw [h]
  rfl

/-- Claim C4: the `OllamaRequest` built from any decoded `CompletionRequest`
has `stream = false`, copies `model` and `prompt` verbatim, and its
serialization carries no `max_tokens` field (the client's `max_tokens` is
accepted but not propagated upstream). -/
theorem buildOllamaRequest_shape (req : CompletionRequest) :
    (buildOllamaRequest req).stream = false ∧
    (buildOllamaRequest req).model = req.model ∧
    (buildOllamaRequest req).prompt = req.prompt ∧
    (marshalOllamaRequest (buildOllamaRequest req)).map Prod.fst =
      ["model", "prompt", "stream"] ∧
    "max_tokens" ∉ (marshalOllamaRequest (buildOllamaRequest req)).map Prod.fst := by
  refine ⟨rfl, rfl, rfl, rfl, ?_⟩
  simp [marshalOllamaRequest]

/-- Claim C6: `OPTIONS` is answered 200 with an empty body and exactly the
CORS headers, whatever handler `enableCORS` wraps (so the completion handler
never runs); any method other than `OPTIONS` and `POST` is answered 405 with
no translation attempted (the result is one fixed error response, independent
of body and upstream); and every response of the endpoint starts with the
CORS header set. -/
theorem completionsEndpoint_cors_behavior :
    (∀ (next : ProxyRequest → HttpResp) (body : Option CompletionRequest),
        enableCORS next { method := "OPTIONS", body := body } =
          { status := 200, headers := corsHeaders, body := .empty }) ∧
    (∀ (upstream : OllamaRequest → UpstreamOutcome) (r : ProxyRequest),
        r.method ≠ "OPTIONS" → r.method ≠ "POST" →
        completionsEndpoint upstream r =
          { status := 405, headers := corsHeaders ++ httpErrorHeaders,
            body := .text "Method not allowed\n" }) ∧
    (∀ (upstream : OllamaRequest → UpstreamOutcome) (r : ProxyRequest),
        ∃ rest, (completionsEndpoint upstream r).headers = corsHeaders ++ rest) := by
  refine ⟨?_, ?_, ?_⟩
  · intro next body
    simp [enableCORS]
  · intro upstream r h1 h2
    simp [completionsEndpoint, enableCORS, handleCompletion, httpError, h1, h2]
  · intro upstream r
    by_cases h : r.method = "OPTIONS"
    · exact ⟨[], by simp [completionsEndpoint, enableCORS, h]⟩
    · exact ⟨(handleCompletion upstream r).headers,
        by simp [completionsEndpoint, enableCORS, h]⟩

/-- Claim C6 witness: a `GET` request (any body, any upstream) is answered
405 with the CORS headers and no translation. -/
theorem completionsEndpoint_cors_behavior_witness :
    completionsEndpoint (fun _ => .readError) { method := "GET", body := none } =
      { status := 405, headers := corsHeaders ++ httpErrorHeaders,
        body := .text "Method not allowed\n" } := by
  exact completionsEndpoint_cors_behavior.2.1 (fun _ => .readError)
    { method := "GET", body := none } (by decide) (by decide)

/-- Claim C7: sending with an input that is empty or all whitespace is a
no-op: the state (in particular the message log) is unchanged and no request
is issued. -/
theorem handleSend_blank_noop (model : String) (maxTokens : Int)
    (st : ClientState) (latency : ℚ) (outcome : FetchOutcome)
    (h : ∀ c ∈ st.input.data, jsIsWhitespace c = true) :
    handleSend model maxTokens st latency outcome = (st, none) := by
  have htrim : (jsTrim st.input).isEmpty = true :=
    jsTrim_isEmpty_of_all_ws st.input h
  simp [handleSend, htrim]

/-- Claim C7 witness: sending with input `"  \t"` (while not loading, with a
nonempty log) changes nothing and issues no request. -/
theorem handleSend_blank_noop_witness :
    handleSend "llama3.2" 150
        { messages := [{ role := .user, content := "hi", metrics := none }],
          input := "  \t", isLoading := false }
        1 .failure =
      ({ messages := [{ role := .user, content := "hi", metrics := none }],
         input := "  \t", isLoading := false }, none) := by
  exact handleSend_blank_noop "llama3.2" 150
    { messages := [{ role := .user, content := "hi", metrics := none }],
      input := "  \t", isLoading := false }
    1 .failure (by decide)

/-- Claim C9: after `clearChat` the message log is empty and the four derived
session metrics — average latency, average throughput, total tokens and
request count — are all 0. -/
theorem clearChat_resets_metrics (st : ClientState) :
    (clearChat st).messages = [] ∧
    avgLatency (clearChat st).messages = 0 ∧
    avgThroughput (clearChat st).messages = 0 ∧
    totalTokens (clearChat st).messages = 0 ∧
    requestCount (clearChat st).messages = 0 :=
  ⟨rfl, rfl, rfl, rfl, rfl⟩

/-- Claim C5: on a successful (2xx, non-empty choices) exchange the stored
`tokensPerSecond` equals `tokens / latency` whenever `latency > 0`, and
equals 0 whenever `latency = 0`. -/
theorem handleSendTry_tokensPerSecond
    (latency : ℚ) (status : Nat) (data : ApiResponse) (c : Choice)
    (cs : List Choice)
    (hok : statusOk status = true) (hch : data.choices = c :: cs) :
    ∃ mt : Metrics,
      handleSendTry latency status data =
        some { role := .assistant, content := c.text, metrics := some mt } ∧
      (0 < latency → mt.tokensPerSecond = (mt.tokens : ℚ) / latency) ∧
      (latency = 0 → mt.tokensPerSecond = 0) := by
  obtain ⟨choices, usage⟩ := data
  obtain rfl : choices = c :: cs := hch
  cases usage with
  | none =>
    refine ⟨{ latency := latency, tokens := splitSpaceCount c.text,
              tokensPerSecond :=
                if 0 < latency then (splitSpaceCount c.text : ℚ) / latency else 0 },
            ?_, ?_, ?_⟩
    · simp [handleSendTry, hok]
    · intro hl; rw [if_pos hl]
    · intro hl; rw [hl]; simp
  | some u =>
    refine ⟨{ latency := latency, tokens := u.completion_tokens,
              tokensPerSecond :=
                if 0 < latency then (u.completion_tokens : ℚ) / latency else 0 },
            ?_, ?_, ?_⟩
    · simp [handleSendTry, hok]
    · intro hl; rw [if_pos hl]
    · intro hl; rw [hl]; simp

/-- Claim C5 witness: at latency 2 s and fallback count 3 the stored
throughput is 3/2 tokens per second. -/
theorem handleSendTry_tokensPerSecond_witness :
    handleSendTry 2 200 { choices := [{ text := "a b c" }], usage := none } =
      some { role := .assistant, content := "a b c",
             metrics := some { latency := 2, tokens := 3, tokensPerSecond := 3 / 2 } } := by
  have _h := handleSendTry_tokensPerSecond 2 200
    { choices := [{ text := "a b c" }], usage := none } { text := "a b c" } [] rfl rfl
  have hc : splitSpaceCount "a b c" = 3 := by decide
  simp [handleSendTry, statusOk, hc]

/-- Claim C8: on a 2xx response the extraction `choices[0].text` is
unguarded: with an empty `choices` array the `try` body faults (throws), and
with a non-empty `choices` array it never faults. -/
theorem handleSendTry_choices_extraction
    (latency : ℚ) (status : Nat) (data : ApiResponse)
    (hok : statusOk status = true) :
    (data.choices = [] → handleSendTry latency status data = none) ∧
    (data.choices ≠ [] → (handleSendTry latency status data).isSome = true) := by
  obtain ⟨choices, usage⟩ := data
  constructor
  · intro h
    obtain rfl : choices = [] := h
    simp [handleSendTry, hok]
  · intro h
    have h' : choices ≠ [] := h
    obtain ⟨c, cs, rfl⟩ := List.exists_cons_of_ne_nil h'
    cases usage <;> simp [handleSendTry, hok]

/-- Claim C8 witness: at status 200 an empty choices array faults and a
singleton choices array does not. -/
theorem handleSendTry_choices_extraction_witness :
    handleSendTry 1 200 { choices := [], usage := none } = none ∧
    (handleSendTry 1 200 { choices := [{ text := "hi" }], usage := none }).isSome = true :=
  ⟨(handleSendTry_choices_extraction 1 200 { choices := [], usage := none } rfl).1 rfl,
   (handleSendTry_choices_extraction 1 200
      { choices := [{ text := "hi" }], usage := none } rfl).2 (List.cons_ne_nil _ _)⟩

/-- Claim C2 counterexample: a 2xx exchange returning text `"hi  there"`
(two spaces) with no usage field stores `tokens = 3`
(`"hi  there".split(" ").length`), while the number of whitespace-delimited
words of that text is 2 — the stored count is not the whitespace-delimited
word count. -/
theorem clientFallbackTokens_counterexample :
    statusOk 200 = true ∧
    handleSendRespond 1
        (.reply 200 { choices := [{ text := "hi  there" }], usage := none }) =
      { role := .assistant, content := "hi  there",
        metrics := some { latency := 1, tokens := 3, tokensPerSecond := 3 } } ∧
    whitespaceWordCount "hi  there" = 2 ∧ (3 : Nat) ≠ 2 := by
  refine ⟨rfl, ?_, by decide, by decide⟩
  have hc : splitSpaceCount "hi  there" = 3 := by decide
  simp [handleSendRespond, handleSendTry, statusOk, hc]

/-- Claim C2 amended: on a successful (2xx, non-empty choices) exchange with
no `usage.completion_tokens`, the stored `tokens` equals
`text.split(" ").length` — the number of segments obtained by cutting the
text at every single space character, i.e. one more than the number of space
characters (hence at least 1, never null or negative); this agrees with the
whitespace-delimited word count only when the words are separated by single
spaces.  When `usage.completion_tokens` is present, `tokens` equals that
reported count. -/
theorem handleSendTry_tokens_rule
    (latency : ℚ) (status : Nat) (data : ApiResponse) (c : Choice)
    (cs : List Choice)
    (hok : statusOk status = true) (hch : data.choices = c :: cs) :
    ∃ mt : Metrics,
      handleSendTry latency status data =
        some { role := .assistant, content := c.text, metrics := some mt } ∧
      (data.usage = none →
        mt.tokens = splitSpaceCount c.text ∧
        mt.tokens = c.text.data.countP (fun ch => ch = ' ') + 1 ∧
        1 ≤ mt.tokens) ∧
      (∀ u, data.usage = some u → mt.tokens = u.completion_tokens) := by
  obtain ⟨choices, usage⟩ := data
  obtain rfl : choices = c :: cs := hch
  cases usage with
  | none =>
    refine ⟨{ latency := latency, tokens := splitSpaceCount c.text,
              tokensPerSecond :=
                if 0 < latency then (splitSpaceCount c.text : ℚ) / latency else 0 },
            ?_, ?_, ?_⟩
    · simp [handleSendTry, hok]
    · intro _
      refine ⟨rfl, splitSpaceCount_eq c.text, ?_⟩
      have h1 : (1 : Nat) ≤ splitSpaceCount c.text := by
        rw [splitSpaceCount_eq]
        omega
      exact h1
    · intro u hu
      exact absurd hu (by simp)
  | some u =>
    refine ⟨{ latency := latency, tokens := u.completion_tokens,
              tokensPerSecond :=
                if 0 < latency then (u.completion_tokens : ℚ) / latency else 0 },
            ?_, ?_, ?_⟩
    · simp [handleSendTry, hok]
    · intro hu
      exact absurd hu (by simp)
    · intro u' hu
      have h2 : some u = some u' := hu
      injection h2 with h3
      rw [h3]

/-- Claim C2 amended witness: the fallback stores 3 for `"hi  there"`, and a
reported `completion_tokens = 42` is stored verbatim. -/
theorem handleSendTry_tokens_rule_witness :
    handleSendTry 1 200 { choices := [{ text := "hi  there" }], usage := none } =
      some { role := .assistant, content := "hi  there",
             metrics := some { latency := 1, tokens := 3, tokensPerSecond := 3 } } ∧
    handleSendTry 1 200
        { choices := [{ text := "hi there" }],
          usage := some { completion_tokens := 42 } } =
      some { role := .assistant, content := "hi there",
             metrics := some { latency := 1, tokens := 42, tokensPerSecond := 42 } } := by
  have _h1 := handleSendTry_tokens_rule 1 200
    { choices := [{ text := "hi  there" }], usage := none }
    { text := "hi  there" } [] rfl rfl
  have _h2 := handleSendTry_tokens_rule 1 200
    { choices := [{ text := "hi there" }], usage := some { completion_tokens := 42 } }
    { text := "hi there" } [] rfl rfl
  constructor
  · have hc : splitSpaceCount "hi  there" = 3 := by decide
    simp [handleSendTry, statusOk, hc]
  · simp [handleSendTry, statusOk]

/-- Claim C3 counterexample: a completed exchange with HTTP status 200 but an
empty `choices` array yields an assistant message with no metrics block and
the transport-failure text — the thrown TypeError from `choices[0].text` is
caught by the `catch` block — refuting "metrics iff the HTTP exchange
succeeded with a 2xx status". -/
theorem metricsIffOk_counterexample :
    statusOk 200 = true ∧
    handleSendRespond 1 (.reply 200 { choices := [], usage := none }) =
      { role := .assistant, content := "Error: Could not connect to backend",
        metrics := none } :=
  ⟨rfl, rfl⟩

/-- Claim C3 amended: the assistant message carries a metrics block iff the
exchange delivered a reply with 2xx status and a non-empty choices array; on
a non-2xx reply the content is `"Error: API returned <status>"` with no
metrics; on a 2xx reply with empty choices the thrown extraction error is
caught by the same `catch` block, so the content is
`"Error: Could not connect to backend"` with no metrics; and on a transport
failure the content is `"Error: Could not connect to backend"` with no
metrics. -/
theorem handleSendRespond_metrics_rule (latency : ℚ) (outcome : FetchOutcome) :
    ((handleSendRespond latency outcome).metrics.isSome = true ↔
      ∃ status data, outcome = .reply status data ∧ statusOk status = true ∧
        data.choices ≠ []) ∧
    (∀ status data, outcome = .reply status data → statusOk status = false →
      handleSendRespond latency outcome =
        { role := .assistant,
          content := "Error: API returned " ++ toString status,
          metrics := none }) ∧
    (∀ status data, outcome = .reply status data → statusOk status = true →
      data.choices = [] →
      handleSendRespond latency outcome = connectErrorMessage) ∧
    (outcome = .failure →
      handleSendRespond latency outcome = connectErrorMessage) := by
  refine ⟨?_, ?_, ?_, ?_⟩
  · cases outcome with
    | failure => simp [handleSendRespond, connectErrorMessage]
    | reply status data =>
      obtain ⟨choices, usage⟩ := data
      cases hok : statusOk status with
      | false => simp [handleSendRespond, handleSendTry, hok]
      | true =>
        cases choices with
        | nil =>
          simp [handleSendRespond, handleSendTry, hok, connectErrorMessage]
        | cons c cs =>
          simp only [handleSendRespond, handleSendTry, hok]
          simp
          exact ⟨status, ⟨c :: cs, usage⟩, ⟨rfl, rfl⟩, hok, by simp⟩
  · rintro status data rfl hok
    obtain ⟨choices, usage⟩ := data
    simp [handleSendRespond, handleSendTry, hok]
  · rintro status data rfl hok hch
    obtain ⟨choices, usage⟩ := data
    obtain rfl : choices = [] := hch
    simp [handleSendRespond, handleSendTry, hok, connectErrorMessage]
  · rintro rfl
    rfl

/-- Claim C3 amended witness: a non-2xx reply (status 500) yields the
status-error message with no metrics. -/
theorem handleSendRespond_metrics_rule_witness :
    handleSendRespond 1
        (.reply 500 { choices := [{ text := "x" }], usage := none }) =
      { role := .assistant, content := "Error: API returned 500",
        metrics := none } := by
  have h := (handleSendRespond_metrics_rule 1
      (.reply 500 { choices := [{ text := "x" }], usage := none })).2.1 500
      { choices := [{ text := "x" }], usage := none } rfl rfl
  exact h.trans (by decide)

end ChatbotApp
